import Mathlib

/-!
Black Magic Probe platform layer (`src/platforms/framework/platform.c`)

A shallow embedding of the target-power, voltage-sense, SPI chip-select and
VBUS-monitor routines of `platform.c`, followed by theorems about them.

The C functions talk to the hardware through libopencm3 calls.  Those calls are
modelled as primitive operations on a `World`: a small register file (GPIO
output latch, GPIO input levels, GPIO pin configuration, timer compare
register, peripheral clock gates), the read-only streams of values that the
polled status flags deliver, the `static` buffer of `platform_target_voltage`,
and a `trace` that logs every register write and every status poll in program
order.  Busy-wait loops take a `fuel` argument that bounds the number of polls.

The board constants of `platform.h` (ports, pin masks, enumerators) are not
part of the file, so they are collected in a `Board` parameter.
-/

namespace Blackmagic

/-! ## Hardware vocabulary -/

/-- The `GPIO_MODE_*` values of the GPIO configuration registers. -/
inductive GpioMode where
  | GPIO_MODE_INPUT
  | GPIO_MODE_OUTPUT_10_MHZ
  | GPIO_MODE_OUTPUT_2_MHZ
  | GPIO_MODE_OUTPUT_50_MHZ
  deriving DecidableEq, Repr

/-- The `GPIO_CNF_*` values of the GPIO configuration registers. -/
inductive GpioCnf where
  | GPIO_CNF_INPUT_ANALOG
  | GPIO_CNF_INPUT_FLOAT
  | GPIO_CNF_INPUT_PULL_UPDOWN
  | GPIO_CNF_OUTPUT_PUSHPULL
  | GPIO_CNF_OUTPUT_OPENDRAIN
  | GPIO_CNF_OUTPUT_ALTFN_PUSHPULL
  | GPIO_CNF_OUTPUT_ALTFN_OPENDRAIN
  deriving DecidableEq, Repr

/-- The peripheral clock gates used by the SPI routines. -/
inductive RccPeriph where
  | RCC_SPI1
  | RCC_SPI2
  deriving DecidableEq, Repr

/-- The peripheral reset lines used by the SPI routines. -/
inductive RccReset where
  | RST_SPI1
  | RST_SPI2
  deriving DecidableEq, Repr

/-- One hardware access, as logged in `World.trace`.  Timer events refer to
`TIM1` (flag `TIM_SR_UIF`, channel `TIM_OC3`), ADC events to `ADC1`. -/
inductive HwEvent where
  | gpio_write (port pins : Nat) (level : Bool)
  | gpio_set_mode (port : Nat) (mode : GpioMode) (cnf : GpioCnf) (pins : Nat)
  | timer_get_flag (result : Bool)
  | timer_clear_flag
  | timer_set_oc_value (value : Nat)
  | adc_set_regular_sequence (channel : Nat)
  | adc_start_conversion_direct
  | adc_eoc (result : Bool)
  | adc_read_regular (value : Nat)
  | adc_sr_clear_eoc
  | rcc_periph_clock_enable (periph : RccPeriph)
  | rcc_periph_clock_disable (periph : RccPeriph)
  | rcc_periph_reset_pulse (reset : RccReset)
  | spi_init_master (controller : Nat)
  | spi_enable (controller : Nat)
  | spi_disable (controller : Nat)
  | nvic_set_priority (irq priority : Nat)
  | nvic_enable_irq (irq : Nat)
  | exti_select_source (line port : Nat)
  | exti_set_trigger_both (line : Nat)
  | exti_enable_request (line : Nat)
  | exti_reset_request (line : Nat)
  deriving DecidableEq, Repr

/-- The machine state the platform routines act on.

* `odr port i`    : output latch of bit `i` of a GPIO port;
* `idr port i`    : level sensed at bit `i` of a GPIO port;
* `pincfg port i` : mode and configuration of bit `i` of a GPIO port;
* `ccr3`          : compare value of `TIM1` channel 3;
* `clk`           : peripheral clock gates;
* `uif k`         : what the `k`-th read of the timer update flag returns,
                    `uif_polls` counting the reads made so far;
* `eoc k`         : what the `k`-th read of the ADC end-of-conversion flag
                    returns, `eoc_polls` counting the reads made so far;
* `adc_dr`        : the conversion result held by the ADC data register;
* `ret`           : the `static char ret[]` buffer of `platform_target_voltage`;
* `trace`         : every register write and status poll so far, oldest first. -/
structure World where
  odr : Nat → Nat → Bool
  idr : Nat → Nat → Bool
  pincfg : Nat → Nat → GpioMode × GpioCnf
  ccr3 : Nat
  clk : RccPeriph → Bool
  uif : Nat → Bool
  uif_polls : Nat
  eoc : Nat → Bool
  eoc_polls : Nat
  adc_dr : Nat
  ret : List Nat
  trace : List HwEvent

/-- The constants `platform.c` takes from `platform.h` and the SPI type
headers: GPIO ports, 16-bit pin masks, SPI controllers and enumerators. -/
structure Board where
  PWR_BR_PORT : Nat
  PWR_BR_PIN : Nat
  USB_PU_PORT : Nat
  USB_PU_PIN : Nat
  USB_VBUS_PORT : Nat
  USB_VBUS_PIN : Nat
  USB_VBUS_IRQ : Nat
  IRQ_PRI_USB_VBUS : Nat
  TCK_PORT : Nat
  TCK_PIN : Nat
  TDI_PORT : Nat
  TDI_PIN : Nat
  TMS_DIR_PORT : Nat
  TMS_DIR_PIN : Nat
  AUX_PORT : Nat
  AUX_FCS : Nat
  AUX_SDCS : Nat
  AUX_DCS : Nat
  EXT_SPI_CS_PORT : Nat
  EXT_SPI_CS : Nat
  EXT_SPI : Nat
  AUX_SPI : Nat
  SPI_BUS_EXTERNAL : Nat
  SPI_BUS_INTERNAL : Nat
  SPI_DEVICE_INT_FLASH : Nat
  SPI_DEVICE_EXT_FLASH : Nat
  SPI_DEVICE_SDCARD : Nat
  SPI_DEVICE_DISPLAY : Nat

/-- `#define TPWR_SOFT_START_STEPS 64U`. -/
def TPWR_SOFT_START_STEPS : Nat := 64

/-! ## libopencm3 primitives -/

/-- Append one event to the log. -/
def World.log (s : World) (e : HwEvent) : World :=
  { s with trace := s.trace ++ [e] }

/-- `gpio_set(port, pins)`: drive every pin of the mask high. -/
def gpio_set (port pins : Nat) (s : World) : World :=
  { s with
    odr := fun p i => if p = port ∧ pins.testBit i = true then true else s.odr p i
    trace := s.trace ++ [HwEvent.gpio_write port pins true] }

/-- `gpio_clear(port, pins)`: drive every pin of the mask low. -/
def gpio_clear (port pins : Nat) (s : World) : World :=
  { s with
    odr := fun p i => if p = port ∧ pins.testBit i = true then false else s.odr p i
    trace := s.trace ++ [HwEvent.gpio_write port pins false] }

/-- `gpio_set_val(port, pin, val)`: `gpio_set` when `val`, else `gpio_clear`. -/
def gpio_set_val (port pin : Nat) (val : Bool) (s : World) : World :=
  if val then gpio_set port pin s else gpio_clear port pin s

/-- `gpio_get(port, pins)` as a truth value: some pin of the 16-bit mask is
sensed high.  A pure read of the input register. -/
def gpio_get (port pins : Nat) (s : World) : Bool :=
  (List.range 16).any fun i => pins.testBit i && s.idr port i

/-- `gpio_set_mode(port, mode, cnf, pins)`: configure every pin of the mask. -/
def gpio_set_mode (port : Nat) (mode : GpioMode) (cnf : GpioCnf) (pins : Nat)
    (s : World) : World :=
  { s with
    pincfg := fun p i => if p = port ∧ pins.testBit i = true then (mode, cnf) else s.pincfg p i
    trace := s.trace ++ [HwEvent.gpio_set_mode port mode cnf pins] }

/-- `timer_get_flag(TIM1, TIM_SR_UIF)`: one poll of the update flag. -/
def timer_get_flag (s : World) : Bool × World :=
  (s.uif s.uif_polls,
   { s with
     uif_polls := s.uif_polls + 1
     trace := s.trace ++ [HwEvent.timer_get_flag (s.uif s.uif_polls)] })

/-- `timer_clear_flag(TIM1, TIM_SR_UIF)`. -/
def timer_clear_flag (s : World) : World :=
  s.log HwEvent.timer_clear_flag

/-- `timer_set_oc_value(TIM1, TIM_OC3, value)`. -/
def timer_set_oc_value (value : Nat) (s : World) : World :=
  { s with ccr3 := value, trace := s.trace ++ [HwEvent.timer_set_oc_value value] }

/-- `adc_set_regular_sequence(ADC1, 1, &channel)`. -/
def adc_set_regular_sequence (channel : Nat) (s : World) : World :=
  s.log (HwEvent.adc_set_regular_sequence channel)

/-- `adc_start_conversion_direct(ADC1)`. -/
def adc_start_conversion_direct (s : World) : World :=
  s.log HwEvent.adc_start_conversion_direct

/-- `adc_eoc(ADC1)`: one poll of the end-of-conversion flag. -/
def adc_eoc (s : World) : Bool × World :=
  (s.eoc s.eoc_polls,
   { s with
     eoc_polls := s.eoc_polls + 1
     trace := s.trace ++ [HwEvent.adc_eoc (s.eoc s.eoc_polls)] })

/-- `adc_read_regular(ADC1)`: the data register as a `uint32_t`. -/
def adc_read_regular (s : World) : Nat × World :=
  (s.adc_dr % 2 ^ 32, s.log (HwEvent.adc_read_regular (s.adc_dr % 2 ^ 32)))

/-- `ADC_SR(ADC1) &= ~ADC_SR_EOC`. -/
def adc_sr_clear_eoc (s : World) : World :=
  s.log HwEvent.adc_sr_clear_eoc

/-- `rcc_periph_clock_enable`. -/
def rcc_periph_clock_enable (p : RccPeriph) (s : World) : World :=
  { s with
    clk := fun q => if q = p then true else s.clk q
    trace := s.trace ++ [HwEvent.rcc_periph_clock_enable p] }

/-- `rcc_periph_clock_disable`. -/
def rcc_periph_clock_disable (p : RccPeriph) (s : World) : World :=
  { s with
    clk := fun q => if q = p then false else s.clk q
    trace := s.trace ++ [HwEvent.rcc_periph_clock_disable p] }

/-- `rcc_periph_reset_pulse`. -/
def rcc_periph_reset_pulse (r : RccReset) (s : World) : World :=
  s.log (HwEvent.rcc_periph_reset_pulse r)

/-- `spi_init_master(controller, SPI_CR1_BAUDRATE_FPCLK_DIV_8, ...)`; the
remaining arguments are the same constants at the only call site. -/
def spi_init_master (controller : Nat) (s : World) : World :=
  s.log (HwEvent.spi_init_master controller)

/-- `spi_enable(controller)`. -/
def spi_enable (controller : Nat) (s : World) : World :=
  s.log (HwEvent.spi_enable controller)

/-- `spi_disable(controller)`. -/
def spi_disable (controller : Nat) (s : World) : World :=
  s.log (HwEvent.spi_disable controller)

/-- `exti_reset_request(line)`: acknowledge a pending edge interrupt. -/
def exti_reset_request (line : Nat) (s : World) : World :=
  s.log (HwEvent.exti_reset_request line)

/-! ## Target power -/

/-- `platform_target_get_power`: `!gpio_get(PWR_BR_PORT, PWR_BR_PIN)`. -/
def platform_target_get_power (b : Board) (s : World) : Bool :=
  !gpio_get b.PWR_BR_PORT b.PWR_BR_PIN s

/-- The loop `while (!timer_get_flag(TIM1, TIM_SR_UIF)) continue;`, giving up
after `fuel` polls. -/
def wait_uif : Nat → World → Option World
  | 0, _ => none
  | fuel + 1, s =>
    let r := timer_get_flag s
    if !r.1 then wait_uif fuel r.2 else some r.2

/-- `platform_wait_pwm_cycle`: wait for the update flag, then clear it. -/
def platform_wait_pwm_cycle (fuel : Nat) (s : World) : Option World :=
  (wait_uif fuel s).map timer_clear_flag

/-- The soft-start loop of `platform_target_set_power`,
`for (step = ...; step < TPWR_SOFT_START_STEPS; ++step)`, entered with the
current value of `step`; `fuel` bounds both the number of iterations and the
polls of each wait. -/
def soft_start_loop (wfuel : Nat) : Nat → Nat → World → Option World
  | 0, _, _ => none
  | fuel + 1, step, s =>
    if step < TPWR_SOFT_START_STEPS then
      match platform_wait_pwm_cycle wfuel (timer_set_oc_value step s) with
      | none => none
      | some s1 => soft_start_loop wfuel fuel (step + 1) s1
    else some s

/-- The `if (power) { ... }` block that ramps the PWM duty cycle. -/
def soft_start (b : Board) (fuel : Nat) (s : World) : Option World :=
  let s1 := gpio_set_mode b.PWR_BR_PORT GpioMode.GPIO_MODE_OUTPUT_50_MHZ
    GpioCnf.GPIO_CNF_OUTPUT_ALTFN_PUSHPULL b.PWR_BR_PIN s
  let s2 := timer_clear_flag s1
  match platform_wait_pwm_cycle fuel s2 with
  | none => none
  | some s3 => soft_start_loop fuel fuel 1 s3

/-- `platform_target_set_power(power)`. -/
def platform_target_set_power (b : Board) (fuel : Nat) (power : Bool) (s : World) :
    Option (Bool × World) :=
  match (if power then soft_start b fuel s else some s) with
  | none => none
  | some s1 =>
    let s2 := gpio_set_val b.PWR_BR_PORT b.PWR_BR_PIN (!power) s1
    let s3 :=
      if power then
        timer_set_oc_value 0
          (gpio_set_mode b.PWR_BR_PORT GpioMode.GPIO_MODE_OUTPUT_50_MHZ
            GpioCnf.GPIO_CNF_OUTPUT_OPENDRAIN b.PWR_BR_PIN s2)
      else s2
    some (true, s3)

/-! ## Target voltage -/

/-- The loop `while (!adc_eoc(ADC1)) continue;`, giving up after `fuel` polls. -/
def wait_eoc : Nat → World → Option World
  | 0, _ => none
  | fuel + 1, s =>
    let r := adc_eoc s
    if !r.1 then wait_eoc fuel r.2 else some r.2

/-- `platform_target_voltage_sense`: one conversion on channel 8, scaled to
tenths of a volt in `uint32_t` arithmetic. -/
def platform_target_voltage_sense (fuel : Nat) (s : World) : Option (Nat × World) :=
  let channel := 8
  let s1 := adc_set_regular_sequence channel s
  let s2 := adc_start_conversion_direct s1
  match wait_eoc fuel s2 with
  | none => none
  | some s3 =>
    let r := adc_read_regular s3
    let val := r.1
    let s4 := adc_sr_clear_eoc r.2
    some ((val * 99 % 2 ^ 32) / 8191, s4)

/-- The initialiser of `static char ret[] = "0.0V"`, terminator included. -/
def ret_initial : List Nat := [48, 46, 48, 86, 0]

/-- The C string starting at the head of a byte buffer. -/
def c_string (buf : List Nat) : List Nat :=
  buf.takeWhile fun c => c != 0

/-- The two stores `ret[0] = '0' + val / 10U; ret[2] = '0' + val % 10U;` with
the `uint32_t` sums narrowed to `char`. -/
def store_digits (val : Nat) (buf : List Nat) : List Nat :=
  (buf.set 0 ((48 + val / 10) % 2 ^ 32 % 256)).set 2 ((48 + val % 10) % 2 ^ 32 % 256)

/-- `platform_target_voltage`: returns the string held by the static buffer
after the two digit stores. -/
def platform_target_voltage (fuel : Nat) (s : World) : Option (List Nat × World) :=
  match platform_target_voltage_sense fuel s with
  | none => none
  | some (val, s1) =>
    let s2 := { s1 with ret := store_digits val s1.ret }
    some (c_string s2.ret, s2)

/-! ## SPI buses and chip selects -/

/-- `platform_spi_init(bus)`. -/
def platform_spi_init (b : Board) (bus : Nat) (s : World) : Bool × World :=
  let s1 :=
    if bus = b.SPI_BUS_EXTERNAL then
      s |> rcc_periph_clock_enable RccPeriph.RCC_SPI1
        |> rcc_periph_reset_pulse RccReset.RST_SPI1
        |> gpio_set_mode b.TCK_PORT GpioMode.GPIO_MODE_OUTPUT_50_MHZ
            GpioCnf.GPIO_CNF_OUTPUT_ALTFN_PUSHPULL b.TCK_PIN
        |> gpio_set_mode b.TDI_PORT GpioMode.GPIO_MODE_OUTPUT_50_MHZ
            GpioCnf.GPIO_CNF_OUTPUT_ALTFN_PUSHPULL b.TDI_PIN
        |> gpio_set b.TMS_DIR_PORT b.TMS_DIR_PIN
    else
      s |> rcc_periph_clock_enable RccPeriph.RCC_SPI2
        |> rcc_periph_reset_pulse RccReset.RST_SPI2
  let controller := if bus = b.SPI_BUS_EXTERNAL then b.EXT_SPI else b.AUX_SPI
  (true, s1 |> spi_init_master controller |> spi_enable controller)

/-- `platform_spi_deinit(bus)`. -/
def platform_spi_deinit (b : Board) (bus : Nat) (s : World) : Bool × World :=
  let s1 := spi_disable (if bus = b.SPI_BUS_EXTERNAL then b.EXT_SPI else b.AUX_SPI) s
  let s2 :=
    if bus = b.SPI_BUS_EXTERNAL then
      s1 |> rcc_periph_clock_disable RccPeriph.RCC_SPI1
         |> gpio_set_mode b.TCK_PORT GpioMode.GPIO_MODE_OUTPUT_50_MHZ
             GpioCnf.GPIO_CNF_OUTPUT_PUSHPULL b.TCK_PIN
         |> gpio_set_mode b.TDI_PORT GpioMode.GPIO_MODE_OUTPUT_50_MHZ
             GpioCnf.GPIO_CNF_OUTPUT_PUSHPULL b.TDI_PIN
    else
      rcc_periph_clock_disable RccPeriph.RCC_SPI2 s1
  (true, s2)

/-- `platform_spi_chip_select(device_select)`; the `switch` over the device
enumerators reads as a chain of comparisons. -/
def platform_spi_chip_select (b : Board) (device_select : Nat) (s : World) : Bool × World :=
  let device := device_select &&& 0x7f
  let select := !(device_select &&& 0x80 != 0)
  if device = b.SPI_DEVICE_INT_FLASH then
    (true, gpio_set_val b.AUX_PORT b.AUX_FCS select s)
  else if device = b.SPI_DEVICE_EXT_FLASH then
    (true, gpio_set_val b.EXT_SPI_CS_PORT b.EXT_SPI_CS select s)
  else if device = b.SPI_DEVICE_SDCARD then
    (true, gpio_set_val b.AUX_PORT b.AUX_SDCS select s)
  else if device = b.SPI_DEVICE_DISPLAY then
    (true, gpio_set_val b.AUX_PORT b.AUX_DCS select s)
  else
    (false, s)

/-! ## USB VBUS monitor -/

/-- `exti15_10_isr`: the VBUS edge handler. -/
def exti15_10_isr (b : Board) (s : World) : World :=
  let usb_vbus_port := b.USB_VBUS_PORT
  let usb_vbus_pin := b.USB_VBUS_PIN
  let s1 :=
    if gpio_get usb_vbus_port usb_vbus_pin s then
      gpio_set_mode b.USB_PU_PORT GpioMode.GPIO_MODE_OUTPUT_10_MHZ
        GpioCnf.GPIO_CNF_OUTPUT_PUSHPULL b.USB_PU_PIN s
    else
      gpio_set_mode b.USB_PU_PORT GpioMode.GPIO_MODE_INPUT
        GpioCnf.GPIO_CNF_INPUT_FLOAT b.USB_PU_PIN s
  exti_reset_request usb_vbus_pin s1

/-- `setup_vbus_irq`. -/
def setup_vbus_irq (b : Board) (s : World) : World :=
  let usb_vbus_port := b.USB_VBUS_PORT
  let usb_vbus_pin := b.USB_VBUS_PIN
  s |> (fun w => w.log (HwEvent.nvic_set_priority b.USB_VBUS_IRQ b.IRQ_PRI_USB_VBUS))
    |> (fun w => w.log (HwEvent.nvic_enable_irq b.USB_VBUS_IRQ))
    |> gpio_set usb_vbus_port usb_vbus_pin
    |> gpio_set b.USB_PU_PORT b.USB_PU_PIN
    |> gpio_set_mode usb_vbus_port GpioMode.GPIO_MODE_INPUT
        GpioCnf.GPIO_CNF_INPUT_PULL_UPDOWN usb_vbus_pin
    |> (fun w => w.log (HwEvent.exti_select_source usb_vbus_pin usb_vbus_port))
    |> (fun w => w.log (HwEvent.exti_set_trigger_both usb_vbus_pin))
    |> (fun w => w.log (HwEvent.exti_enable_request usb_vbus_pin))
    |> exti15_10_isr b

/-! ## Vocabulary of the statements -/

/-- A pin constant is a non-empty 16-bit mask. -/
def pin_mask_ok (pins : Nat) : Prop := 0 < pins ∧ pins < 2 ^ 16

instance (pins : Nat) : Decidable (pin_mask_ok pins) := by
  unfold pin_mask_ok; infer_instance

/-- Every wait on a polled flag ends: from any poll on, the flag is
eventually read as set. -/
def polls_end (flag : Nat → Bool) : Prop := ∀ k, ∃ j, k ≤ j ∧ flag j = true

/-- The events of one `platform_wait_pwm_cycle` that needed `n` unsuccessful
polls: the polls, the successful poll, the clearing of the flag. -/
def pwm_wait_events (n : Nat) : List HwEvent :=
  List.replicate n (HwEvent.timer_get_flag false) ++
    [HwEvent.timer_get_flag true, HwEvent.timer_clear_flag]

/-- The events of consecutive ramp steps starting at compare value `step`, one
step per entry of the list, the entry being the number of unsuccessful polls
of that step's wait. -/
def ramp_events : Nat → List Nat → List HwEvent
  | _, [] => []
  | step, n :: ns =>
    HwEvent.timer_set_oc_value step :: (pwm_wait_events n ++ ramp_events (step + 1) ns)

/-- The events of a whole power-on call: pin handed to the timer, flag
cleared, one wait, the ramp, pin level, pin handed back, compare value reset. -/
def power_on_events (b : Board) (n0 : Nat) (ns : List Nat) : List HwEvent :=
  [HwEvent.gpio_set_mode b.PWR_BR_PORT GpioMode.GPIO_MODE_OUTPUT_50_MHZ
      GpioCnf.GPIO_CNF_OUTPUT_ALTFN_PUSHPULL b.PWR_BR_PIN,
    HwEvent.timer_clear_flag] ++ pwm_wait_events n0 ++ ramp_events 1 ns ++
  [HwEvent.gpio_write b.PWR_BR_PORT b.PWR_BR_PIN false,
    HwEvent.gpio_set_mode b.PWR_BR_PORT GpioMode.GPIO_MODE_OUTPUT_50_MHZ
      GpioCnf.GPIO_CNF_OUTPUT_OPENDRAIN b.PWR_BR_PIN,
    HwEvent.timer_set_oc_value 0]

/-- The PWM compare values written by a sequence of events, in order. -/
def oc_values (tr : List HwEvent) : List Nat :=
  tr.filterMap fun e =>
    match e with
    | HwEvent.timer_set_oc_value v => some v
    | _ => none

/-- The pin-mode changes made by a sequence of events, in order. -/
def mode_changes (tr : List HwEvent) : List HwEvent :=
  tr.filter fun e =>
    match e with
    | HwEvent.gpio_set_mode _ _ _ _ => true
    | _ => false

/-- The pin-level writes made by a sequence of events, in order. -/
def pin_writes (tr : List HwEvent) : List HwEvent :=
  tr.filter fun e =>
    match e with
    | HwEvent.gpio_write _ _ _ => true
    | _ => false

/-- The number of acknowledgments of interrupt line `line` in a sequence of
events. -/
def ack_count (line : Nat) (tr : List HwEvent) : Nat :=
  tr.count (HwEvent.exti_reset_request line)

/-- The chip-select table read off the `switch` of `platform_spi_chip_select`:
device identifier, port, pin. -/
def cs_table (b : Board) : List (Nat × Nat × Nat) :=
  [(b.SPI_DEVICE_INT_FLASH, b.AUX_PORT, b.AUX_FCS),
   (b.SPI_DEVICE_EXT_FLASH, b.EXT_SPI_CS_PORT, b.EXT_SPI_CS),
   (b.SPI_DEVICE_SDCARD, b.AUX_PORT, b.AUX_SDCS),
   (b.SPI_DEVICE_DISPLAY, b.AUX_PORT, b.AUX_DCS)]

/-- The four device enumerators are pairwise different, as the `case` labels
of one `switch` have to be. -/
def devices_distinct (b : Board) : Prop :=
  ((cs_table b).map fun e => e.1).Nodup

instance (b : Board) : Decidable (devices_distinct b) := by
  unfold devices_distinct; infer_instance

/-- The buffer of `platform_target_voltage` after earlier calls that sensed
the given values, oldest first. -/
def ret_after (earlier : List Nat) : List Nat :=
  earlier.foldl (fun buf v => store_digits v buf) ret_initial

/-! ## A concrete board and machine state -/

/-- A sample assignment of the board constants: ports `GPIOA = 0`,
`GPIOB = 1`, `GPIOC = 2`, pins as one-bit masks, enumerators counted from 0. -/
def sample_board : Board where
  PWR_BR_PORT := 1
  PWR_BR_PIN := 2
  USB_PU_PORT := 0
  USB_PU_PIN := 256
  USB_VBUS_PORT := 1
  USB_VBUS_PIN := 8192
  USB_VBUS_IRQ := 40
  IRQ_PRI_USB_VBUS := 224
  TCK_PORT := 0
  TCK_PIN := 32
  TDI_PORT := 0
  TDI_PIN := 8
  TMS_DIR_PORT := 0
  TMS_DIR_PIN := 2
  AUX_PORT := 1
  AUX_FCS := 32
  AUX_SDCS := 64
  AUX_DCS := 128
  EXT_SPI_CS_PORT := 0
  EXT_SPI_CS := 16
  EXT_SPI := 1
  AUX_SPI := 2
  SPI_BUS_EXTERNAL := 0
  SPI_BUS_INTERNAL := 1
  SPI_DEVICE_INT_FLASH := 0
  SPI_DEVICE_EXT_FLASH := 1
  SPI_DEVICE_SDCARD := 2
  SPI_DEVICE_DISPLAY := 3

/-- A sample machine state: all latches low, all pins floating inputs, clocks
gated off, the VBUS sense pin reading high, the timer update flag set on every
third poll, the ADC done on every second poll with raw result `2731`, and an
empty log. -/
def sample_world : World where
  odr := fun _ _ => false
  idr := fun p i => decide (p = 1 ∧ i = 13)
  pincfg := fun _ _ => (GpioMode.GPIO_MODE_INPUT, GpioCnf.GPIO_CNF_INPUT_FLOAT)
  ccr3 := 0
  clk := fun _ => false
  uif := fun k => decide (k % 3 = 2)
  uif_polls := 0
  eoc := fun k => decide (k % 2 = 1)
  eoc_polls := 0
  adc_dr := 2731
  ret := ret_initial
  trace := []

/-! ## Basic facts about the primitives -/

section Helpers

theorem gpio_set_val_eq (port pin : Nat) (val : Bool) (s : World) :
    gpio_set_val port pin val s =
      { s with
        odr := fun p i => if p = port ∧ pin.testBit i = true then val else s.odr p i
        trace := s.trace ++ [HwEvent.gpio_write port pin val] } := by
  cases val <;> simp [gpio_set_val, gpio_set, gpio_clear]

theorem exists_bit_of_pin_mask_ok {pins : Nat} (h : pin_mask_ok pins) :
    ∃ i, i < 16 ∧ pins.testBit i = true := by
  obtain ⟨hpos, hlt⟩ := h
  obtain ⟨i, hi⟩ := Nat.ne_zero_implies_bit_true (Nat.pos_iff_ne_zero.mp hpos)
  refine ⟨i, ?_, hi⟩
  by_contra hge
  have h16 : 16 ≤ i := Nat.le_of_not_lt hge
  have hpow : pins < 2 ^ i := lt_of_lt_of_le hlt (Nat.pow_le_pow_right (by decide) h16)
  rw [Nat.testBit_lt_two_pow hpow] at hi
  exact Bool.noConfusion hi

theorem gpio_get_eq_of_bits (port pins : Nat) (t : World) (v : Bool)
    (hpin : pin_mask_ok pins)
    (h : ∀ i, i < 16 → pins.testBit i = true → t.idr port i = v) :
    gpio_get port pins t = v := by
  obtain ⟨i0, hi0, hb0⟩ := exists_bit_of_pin_mask_ok hpin
  cases v with
  | true =>
    unfold gpio_get
    rw [List.any_eq_true]
    exact ⟨i0, List.mem_range.mpr hi0, by simp [hb0, h i0 hi0 hb0]⟩
  | false =>
    unfold gpio_get
    rw [List.any_eq_false]
    intro i hi
    have hi16 : i < 16 := List.mem_range.mp hi
    cases hb : pins.testBit i with
    | false => simp
    | true => simp [h i hi16 hb]

theorem and_128_eq_zero_iff (d : Nat) : (d &&& 0x80 != 0) = d.testBit 7 := by
  have h : d &&& 0x80 = (d.testBit 7).toNat * 2 ^ 7 := by
    have := Nat.and_two_pow d 7
    simpa using this
  rw [h]
  cases d.testBit 7 <;> simp

theorem first_set_poll (flag : Nat → Bool) (k : Nat) (h : ∃ j, k ≤ j ∧ flag j = true) :
    ∃ n, (∀ j, j < n → flag (k + j) = false) ∧ flag (k + n) = true := by
  have hex : ∃ n, flag (k + n) = true := by
    obtain ⟨j, hkj, hj⟩ := h
    exact ⟨j - k, by rw [Nat.add_sub_cancel' hkj]; exact hj⟩
  refine ⟨Nat.find hex, ?_, Nat.find_spec hex⟩
  intro j hj
  have := Nat.find_min hex hj
  simpa using this

theorem wait_uif_some (n : Nat) : ∀ (s : World) (fuel : Nat), n < fuel →
    (∀ j, j < n → s.uif (s.uif_polls + j) = false) → s.uif (s.uif_polls + n) = true →
    wait_uif fuel s = some
      { s with
        uif_polls := s.uif_polls + n + 1
        trace := s.trace ++
          (List.replicate n (HwEvent.timer_get_flag false) ++ [HwEvent.timer_get_flag true]) } := by
  induction n with
  | zero =>
    intro s fuel hf _ hset
    obtain ⟨f, rfl⟩ := Nat.exists_eq_succ_of_ne_zero (Nat.pos_iff_ne_zero.mp hf)
    have hset0 : s.uif s.uif_polls = true := by simpa using hset
    simp [wait_uif, timer_get_flag, hset0]
  | succ n ih =>
    intro s fuel hf hclear hset
    obtain ⟨f, rfl⟩ := Nat.exists_eq_succ_of_ne_zero (Nat.pos_iff_ne_zero.mp (Nat.zero_lt_of_lt hf))
    have h0 : s.uif s.uif_polls = false := by simpa using hclear 0 (Nat.succ_pos n)
    have hf2 : n < f := Nat.lt_of_succ_lt_succ hf
    have hstep := ih (timer_get_flag s).2 f hf2
      (by
        intro j hj
        have := hclear (j + 1) (Nat.succ_lt_succ hj)
        simpa [timer_get_flag, Nat.add_assoc, Nat.add_comm 1 j] using this)
      (by
        simpa [timer_get_flag, Nat.add_assoc, Nat.add_comm 1 n] using hset)
    simp only [wait_uif, h0, timer_get_flag, Bool.not_false, if_true] at hstep ⊢
    rw [hstep]
    simp [List.replicate_succ, Nat.add_assoc, Nat.add_comm 1 n]

theorem wait_pwm_cycle_some (s : World) (n fuel : Nat) (hf : n < fuel)
    (hclear : ∀ j, j < n → s.uif (s.uif_polls + j) = false)
    (hset : s.uif (s.uif_polls + n) = true) :
    platform_wait_pwm_cycle fuel s = some
      { s with
        uif_polls := s.uif_polls + n + 1
        trace := s.trace ++ pwm_wait_events n } := by
  unfold platform_wait_pwm_cycle
  rw [wait_uif_some n s fuel hf hclear hset]
  simp [timer_clear_flag, World.log, pwm_wait_events]

theorem wait_eoc_some (n : Nat) : ∀ (s : World) (fuel : Nat), n < fuel →
    (∀ j, j < n → s.eoc (s.eoc_polls + j) = false) → s.eoc (s.eoc_polls + n) = true →
    wait_eoc fuel s = some
      { s with
        eoc_polls := s.eoc_polls + n + 1
        trace := s.trace ++
          (List.replicate n (HwEvent.adc_eoc false) ++ [HwEvent.adc_eoc true]) } := by
  induction n with
  | zero =>
    intro s fuel hf _ hset
    obtain ⟨f, rfl⟩ := Nat.exists_eq_succ_of_ne_zero (Nat.pos_iff_ne_zero.mp hf)
    have hset0 : s.eoc s.eoc_polls = true := by simpa using hset
    simp [wait_eoc, adc_eoc, hset0]
  | succ n ih =>
    intro s fuel hf hclear hset
    obtain ⟨f, rfl⟩ := Nat.exists_eq_succ_of_ne_zero (Nat.pos_iff_ne_zero.mp (Nat.zero_lt_of_lt hf))
    have h0 : s.eoc s.eoc_polls = false := by simpa using hclear 0 (Nat.succ_pos n)
    have hf2 : n < f := Nat.lt_of_succ_lt_succ hf
    have hstep := ih (adc_eoc s).2 f hf2
      (by
        intro j hj
        have := hclear (j + 1) (Nat.succ_lt_succ hj)
        simpa [adc_eoc, Nat.add_assoc, Nat.add_comm 1 j] using this)
      (by
        simpa [adc_eoc, Nat.add_assoc, Nat.add_comm 1 n] using hset)
    simp only [wait_eoc, h0, adc_eoc, Bool.not_false, if_true] at hstep ⊢
    rw [hstep]
    simp [List.replicate_succ, Nat.add_assoc, Nat.add_comm 1 n]

theorem soft_start_loop_some (m : Nat) : ∀ (step : Nat) (s : World), polls_end s.uif →
    step + m = 64 →
    ∃ N ns k, List.length ns = m ∧ ∀ wfuel fuel, N ≤ wfuel → m < fuel →
      soft_start_loop wfuel fuel step s = some
        { s with
          ccr3 := if m = 0 then s.ccr3 else 63
          uif_polls := k
          trace := s.trace ++ ramp_events step ns } := by
  induction m with
  | zero =>
    intro step s _ hstep
    refine ⟨0, [], s.uif_polls, rfl, ?_⟩
    intro wfuel fuel _ hf
    obtain ⟨f, rfl⟩ := Nat.exists_eq_succ_of_ne_zero (Nat.pos_iff_ne_zero.mp hf)
    have h64 : step = 64 := by omega
    simp [soft_start_loop, TPWR_SOFT_START_STEPS, h64, ramp_events]
  | succ m ih =>
    intro step s hfair hstep
    obtain ⟨n, hclear, hset⟩ := first_set_poll s.uif s.uif_polls (hfair s.uif_polls)
    have hwait := fun wfuel (hw : n < wfuel) =>
      wait_pwm_cycle_some (timer_set_oc_value step s) n wfuel hw hclear hset
    obtain ⟨N, ns, k, hlen, hrest⟩ := ih (step + 1)
      { timer_set_oc_value step s with
        uif_polls := s.uif_polls + n + 1
        trace := (timer_set_oc_value step s).trace ++ pwm_wait_events n }
      hfair (by omega)
    refine ⟨max (n + 1) N, n :: ns, k, by simp [hlen], ?_⟩
    intro wfuel fuel hw hf
    obtain ⟨f, rfl⟩ := Nat.exists_eq_succ_of_ne_zero (Nat.pos_iff_ne_zero.mp (Nat.zero_lt_of_lt hf))
    have hlt : step < TPWR_SOFT_START_STEPS := by
      unfold TPWR_SOFT_START_STEPS; omega
    have hw1 : n < wfuel := by
      have := le_max_left (n + 1) N
      omega
    have hw2 : N ≤ wfuel := le_trans (le_max_right (n + 1) N) hw
    have hf2 : m < f := Nat.lt_of_succ_lt_succ hf
    have hrest2 := hrest wfuel f hw2 hf2
    simp only [soft_start_loop, hlt, if_true, hwait wfuel hw1]
    simp only [timer_set_oc_value] at hrest2 ⊢
    rw [hrest2]
    have h63 : m = 0 → step = 63 := by omega
    by_cases hm : m = 0
    · simp [hm, h63 hm, ramp_events]
    · simp [hm, ramp_events]

theorem set_power_on_some (b : Board) (s : World) (h : polls_end s.uif) :
    ∃ N n0 ns k, List.length ns = 63 ∧ ∀ fuel, N ≤ fuel →
      platform_target_set_power b fuel true s = some (true,
        { s with
          odr := fun p i =>
            if p = b.PWR_BR_PORT ∧ b.PWR_BR_PIN.testBit i = true then false else s.odr p i
          pincfg := fun p i =>
            if p = b.PWR_BR_PORT ∧ b.PWR_BR_PIN.testBit i = true then
              (GpioMode.GPIO_MODE_OUTPUT_50_MHZ, GpioCnf.GPIO_CNF_OUTPUT_OPENDRAIN)
            else s.pincfg p i
          ccr3 := 0
          uif_polls := k
          trace := s.trace ++ power_on_events b n0 ns }) := by
  obtain ⟨n0, hclear, hset⟩ := first_set_poll s.uif s.uif_polls (h s.uif_polls)
  have hwait := fun fuel (hw : n0 < fuel) =>
    wait_pwm_cycle_some
      (timer_clear_flag (gpio_set_mode b.PWR_BR_PORT GpioMode.GPIO_MODE_OUTPUT_50_MHZ
        GpioCnf.GPIO_CNF_OUTPUT_ALTFN_PUSHPULL b.PWR_BR_PIN s)) n0 fuel hw hclear hset
  obtain ⟨N, ns, k, hlen, hloop⟩ := soft_start_loop_some 63 1
    { timer_clear_flag (gpio_set_mode b.PWR_BR_PORT GpioMode.GPIO_MODE_OUTPUT_50_MHZ
        GpioCnf.GPIO_CNF_OUTPUT_ALTFN_PUSHPULL b.PWR_BR_PIN s) with
      uif_polls := s.uif_polls + n0 + 1
      trace := (timer_clear_flag (gpio_set_mode b.PWR_BR_PORT GpioMode.GPIO_MODE_OUTPUT_50_MHZ
        GpioCnf.GPIO_CNF_OUTPUT_ALTFN_PUSHPULL b.PWR_BR_PIN s)).trace ++ pwm_wait_events n0 }
    h rfl
  refine ⟨max (max (n0 + 1) N) 64, n0, ns, k, hlen, ?_⟩
  intro fuel hfuel
  have h1 : n0 < fuel := by
    have := le_max_left (n0 + 1) N
    have := le_max_left (max (n0 + 1) N) 64
    omega
  have h2 : N ≤ fuel := by
    have := le_max_right (n0 + 1) N
    have := le_max_left (max (n0 + 1) N) 64
    omega
  have h3 : 63 < fuel := by
    have := le_max_right (max (n0 + 1) N) 64
    omega
  have hloop2 := hloop fuel fuel h2 h3
  simp only [platform_target_set_power, soft_start, if_true, hwait fuel h1]
  simp only [timer_clear_flag, gpio_set_mode, World.log] at hloop2 ⊢
  rw [hloop2]
  simp only [gpio_set_val_eq, Bool.not_true, timer_set_oc_value, gpio_set_mode, power_on_events]
  simp only [Option.some.injEq, Prod.mk.injEq, true_and, World.mk.injEq, List.append_assoc,
    List.singleton_append, List.cons_append, List.nil_append, and_true]
  funext p i
  by_cases hc : p = b.PWR_BR_PORT ∧ b.PWR_BR_PIN.testBit i = true <;> simp [hc]

theorem wait_eoc_frame : ∀ (fuel : Nat) (s s' : World), wait_eoc fuel s = some s' →
    s'.adc_dr = s.adc_dr ∧ s'.ret = s.ret := by
  intro fuel
  induction fuel with
  | zero => intro s s' h; simp [wait_eoc] at h
  | succ f ih =>
    intro s s' h
    simp only [wait_eoc] at h
    by_cases hflag : (adc_eoc s).1 = true
    · simp only [hflag, Bool.not_true, Bool.false_eq_true, if_false, Option.some.injEq] at h
      subst h
      simp [adc_eoc]
    · have hflag2 : (adc_eoc s).1 = false := by simpa using hflag
      simp only [hflag2, Bool.not_false, if_true] at h
      have := ih _ _ h
      simpa [adc_eoc] using this

theorem voltage_sense_value (fuel : Nat) (s : World) (v : Nat)
    (h : (platform_target_voltage_sense fuel s).map Prod.fst = some v) :
    v = (s.adc_dr % 2 ^ 32 * 99 % 2 ^ 32) / 8191 ∧
      ∃ s', platform_target_voltage_sense fuel s = some (v, s') ∧ s'.ret = s.ret := by
  unfold platform_target_voltage_sense at h ⊢
  cases hw : wait_eoc fuel (adc_start_conversion_direct (adc_set_regular_sequence 8 s)) with
  | none => simp [hw] at h
  | some s3 =>
    obtain ⟨hdr, hret⟩ := wait_eoc_frame _ _ _ hw
    simp only [hw, Option.map_some', Option.some.injEq, adc_read_regular] at h ⊢
    simp only [adc_start_conversion_direct, adc_set_regular_sequence, World.log] at hdr hret
    rw [hdr] at h
    refine ⟨h.symm, adc_sr_clear_eoc (s3.log (HwEvent.adc_read_regular (s3.adc_dr % 2 ^ 32))),
      ?_, ?_⟩
    · rw [hdr, h]
    · simpa [adc_sr_clear_eoc, World.log] using hret

theorem voltage_sense_some (s : World) (h : ∃ j, s.eoc_polls ≤ j ∧ s.eoc j = true) :
    ∃ N, ∀ fuel, N ≤ fuel → ∃ s',
      platform_target_voltage_sense fuel s =
        some ((s.adc_dr % 2 ^ 32 * 99 % 2 ^ 32) / 8191, s') := by
  obtain ⟨n, hclear, hset⟩ := first_set_poll s.eoc s.eoc_polls h
  refine ⟨n + 1, ?_⟩
  intro fuel hfuel
  have hw := wait_eoc_some n (adc_start_conversion_direct (adc_set_regular_sequence 8 s)) fuel
    (by omega) hclear hset
  unfold platform_target_voltage_sense
  simp only [hw]
  exact ⟨_, rfl⟩

theorem ret_after_shape (earlier : List Nat) :
    ∃ a c, ret_after earlier = [a, 46, c, 86, 0] := by
  have key : ∀ (vs : List Nat) (a c : Nat),
      ∃ a' c', vs.foldl (fun buf v => store_digits v buf) [a, 46, c, 86, 0] =
        [a', 46, c', 86, 0] := by
    intro vs
    induction vs with
    | nil => intro a c; exact ⟨a, c, rfl⟩
    | cons v vs ih =>
      intro a c
      simp only [List.foldl_cons, store_digits, List.set_cons_zero, List.set_cons_succ]
      exact ih _ _
  exact key earlier 48 48

theorem ret_after_snoc (earlier : List Nat) (d : Nat) :
    ret_after (earlier ++ [d]) = store_digits d (ret_after earlier) := by
  simp [ret_after, List.foldl_append]

theorem oc_values_append (l1 l2 : List HwEvent) :
    oc_values (l1 ++ l2) = oc_values l1 ++ oc_values l2 := by
  simp [oc_values, List.filterMap_append]

theorem oc_values_wait (n : Nat) : oc_values (pwm_wait_events n) = [] := by
  induction n with
  | zero => rfl
  | succ n ih =>
    simp [pwm_wait_events, oc_values, List.replicate_succ]

theorem oc_values_ramp (ns : List Nat) : ∀ step : Nat,
    oc_values (ramp_events step ns) = List.range' step ns.length := by
  induction ns with
  | nil => intro step; rfl
  | cons n ns ih =>
    intro step
    have hcons : oc_values (HwEvent.timer_set_oc_value step ::
        (pwm_wait_events n ++ ramp_events (step + 1) ns)) =
        step :: oc_values (pwm_wait_events n ++ ramp_events (step + 1) ns) := by
      simp [oc_values]
    rw [ramp_events, hcons, oc_values_append, oc_values_wait, ih (step + 1)]
    simp [List.range'_succ]

theorem mode_changes_append (l1 l2 : List HwEvent) :
    mode_changes (l1 ++ l2) = mode_changes l1 ++ mode_changes l2 := by
  simp [mode_changes]

theorem mode_changes_wait (n : Nat) : mode_changes (pwm_wait_events n) = [] := by
  induction n with
  | zero => rfl
  | succ n ih =>
    simp [pwm_wait_events, mode_changes, List.replicate_succ]

theorem mode_changes_ramp (ns : List Nat) : ∀ step : Nat,
    mode_changes (ramp_events step ns) = [] := by
  induction ns with
  | nil => intro step; rfl
  | cons n ns ih =>
    intro step
    have hcons : mode_changes (HwEvent.timer_set_oc_value step ::
        (pwm_wait_events n ++ ramp_events (step + 1) ns)) =
        mode_changes (pwm_wait_events n ++ ramp_events (step + 1) ns) := by
      simp [mode_changes]
    rw [ramp_events, hcons, mode_changes_append, mode_changes_wait, ih (step + 1)]
    rfl

theorem pin_writes_append (l1 l2 : List HwEvent) :
    pin_writes (l1 ++ l2) = pin_writes l1 ++ pin_writes l2 := by
  simp [pin_writes]

theorem pin_writes_wait (n : Nat) : pin_writes (pwm_wait_events n) = [] := by
  induction n with
  | zero => rfl
  | succ n ih =>
    simp [pwm_wait_events, pin_writes, List.replicate_succ]

theorem pin_writes_ramp (ns : List Nat) : ∀ step : Nat,
    pin_writes (ramp_events step ns) = [] := by
  induction ns with
  | nil => intro step; rfl
  | cons n ns ih =>
    intro step
    have hcons : pin_writes (HwEvent.timer_set_oc_value step ::
        (pwm_wait_events n ++ ramp_events (step + 1) ns)) =
        pin_writes (pwm_wait_events n ++ ramp_events (step + 1) ns) := by
      simp [pin_writes]
    rw [ramp_events, hcons, pin_writes_append, pin_writes_wait, ih (step + 1)]
    rfl

theorem pin_writes_power_on (b : Board) (n0 : Nat) (ns : List Nat) :
    pin_writes (power_on_events b n0 ns) =
      [HwEvent.gpio_write b.PWR_BR_PORT b.PWR_BR_PIN false] := by
  unfold power_on_events
  rw [pin_writes_append, pin_writes_append, pin_writes_append, pin_writes_wait, pin_writes_ramp]
  simp [pin_writes]

theorem sample_world_polls_end : polls_end sample_world.uif := by
  intro k
  refine ⟨3 * k + 2, by omega, ?_⟩
  have : (3 * k + 2) % 3 = 2 := by omega
  simp [sample_world, this]

end Helpers

/-! ## The claims -/

/-- Claim C1.  For every raw conversion result `r` with `r ≤ 8191` held by the
ADC data register, once the conversion ends (the end-of-conversion flag is
eventually read as set) `platform_target_voltage_sense` returns exactly
`r * 99 / 8191`, the floor of the quotient; the `uint32_t` product does not
wrap in that range.  The instances `r = 0, 4095, 8191` give `0, 49, 99`. -/
theorem voltage_sense_scale (s : World) (r : Nat) (hr : r ≤ 8191) (hdr : s.adc_dr = r)
    (hend : ∃ j, s.eoc_polls ≤ j ∧ s.eoc j = true) :
    ∃ N, ∀ fuel, N ≤ fuel → ∃ s',
      platform_target_voltage_sense fuel s = some (r * 99 / 8191, s') := by
  obtain ⟨N, hN⟩ := voltage_sense_some s hend
  refine ⟨N, ?_⟩
  intro fuel hfuel
  obtain ⟨s', hs'⟩ := hN fuel hfuel
  refine ⟨s', ?_⟩
  rw [hs', hdr]
  have h1 : r % 2 ^ 32 = r := Nat.mod_eq_of_lt (by omega)
  have h2 : r * 99 % 2 ^ 32 = r * 99 := Nat.mod_eq_of_lt (by omega)
  rw [h1, h2]

/-- Witness of C1 at the raw results `0`, `4095` and `8191`, which scale to
`0`, `49` and `99`. -/
theorem voltage_sense_scale_witness :
    (∃ N, ∀ fuel, N ≤ fuel → ∃ s',
      platform_target_voltage_sense fuel { sample_world with adc_dr := 0 } = some (0, s')) ∧
    (∃ N, ∀ fuel, N ≤ fuel → ∃ s',
      platform_target_voltage_sense fuel { sample_world with adc_dr := 4095 } = some (49, s')) ∧
    (∃ N, ∀ fuel, N ≤ fuel → ∃ s',
      platform_target_voltage_sense fuel { sample_world with adc_dr := 8191 } = some (99, s')) :=
  ⟨voltage_sense_scale { sample_world with adc_dr := 0 } 0 (by decide) rfl
      ⟨1, by decide, by decide⟩,
    voltage_sense_scale { sample_world with adc_dr := 4095 } 4095 (by decide) rfl
      ⟨1, by decide, by decide⟩,
    voltage_sense_scale { sample_world with adc_dr := 8191 } 8191 (by decide) rfl
      ⟨1, by decide, by decide⟩⟩

/-- Claim C2.  Whenever the sensor returns a decivolt value `d ≤ 99`,
`platform_target_voltage` returns the four characters digit `d / 10`, `.`,
digit `d % 10`, `V`, whatever values earlier calls left in the static buffer;
and every raw sample `r ≤ 4095` makes the sensor return at most `49`. -/
theorem voltage_string (fuel : Nat) (s : World) (d : Nat) (earlier : List Nat)
    (hbuf : s.ret = ret_after earlier)
    (hs : (platform_target_voltage_sense fuel s).map Prod.fst = some d) (hd : d ≤ 99) :
    (∃ s2, platform_target_voltage fuel s = some ([48 + d / 10, 46, 48 + d % 10, 86], s2) ∧
      s2.ret = ret_after (earlier ++ [d])) ∧
    (∀ (f : Nat) (w : World) (v : Nat), w.adc_dr ≤ 4095 →
      (platform_target_voltage_sense f w).map Prod.fst = some v → v ≤ 49) := by
  constructor
  · obtain ⟨_, s1, hs1, hret⟩ := voltage_sense_value fuel s d hs
    obtain ⟨a, c, hshape⟩ := ret_after_shape earlier
    have hstore : store_digits d s1.ret = [48 + d / 10, 46, 48 + d % 10, 86, 0] := by
      rw [hret, hbuf, hshape]
      have e1 : (48 + d / 10) % 2 ^ 32 % 256 = 48 + d / 10 := by omega
      have e2 : (48 + d % 10) % 2 ^ 32 % 256 = 48 + d % 10 := by omega
      simp only [store_digits, e1, e2, List.set_cons_zero, List.set_cons_succ]
    refine ⟨{ s1 with ret := store_digits d s1.ret }, ?_, ?_⟩
    · have n1 : (48 + d / 10 != 0) = true := by simp
      have n2 : (48 + d % 10 != 0) = true := by simp
      simp only [platform_target_voltage, hs1, hstore]
      simp [c_string, List.takeWhile, n1, n2]
    · rw [ret_after_snoc, ← hbuf, ← hret]
  · intro f w v hw hv
    obtain ⟨hval, _⟩ := voltage_sense_value f w v hv
    rw [hval]
    have h1 : w.adc_dr % 2 ^ 32 = w.adc_dr := Nat.mod_eq_of_lt (by omega)
    have h2 : w.adc_dr * 99 % 2 ^ 32 = w.adc_dr * 99 := Nat.mod_eq_of_lt (by omega)
    rw [h1, h2]
    omega

/-- Witness of C2: a sensed `33` on a fresh buffer reads `3.3V`, and a sensed
`5` on the buffer that call left behind reads `0.5V`. -/
theorem voltage_string_witness :
    ((platform_target_voltage_sense 10 sample_world).map Prod.fst = some 33 ∧
      String.mk ([48 + 33 / 10, 46, 48 + 33 % 10, 86].map Char.ofNat) = "3.3V" ∧
      ∃ s2, platform_target_voltage 10 sample_world =
        some ([48 + 33 / 10, 46, 48 + 33 % 10, 86], s2) ∧ s2.ret = ret_after ([] ++ [33])) ∧
    ((platform_target_voltage_sense 10
        { sample_world with adc_dr := 414, ret := ret_after [33] }).map Prod.fst = some 5 ∧
      String.mk ([48 + 5 / 10, 46, 48 + 5 % 10, 86].map Char.ofNat) = "0.5V" ∧
      ∃ s2, platform_target_voltage 10
          { sample_world with adc_dr := 414, ret := ret_after [33] } =
        some ([48 + 5 / 10, 46, 48 + 5 % 10, 86], s2) ∧ s2.ret = ret_after ([33] ++ [5])) :=
  ⟨⟨by decide, by decide,
      (voltage_string 10 sample_world 33 [] rfl (by decide) (by decide)).1⟩,
    ⟨by decide, by decide,
      (voltage_string 10 { sample_world with adc_dr := 414, ret := ret_after [33] } 5 [33]
        rfl (by decide) (by decide)).1⟩⟩

/-- Claim C3.  For a power-on call whose waits all end (the timer update flag
is eventually read as set from any poll on), `platform_target_set_power`
returns `true` and its hardware accesses are exactly `power_on_events`: the
power pin is handed to the timer (alternate-function mode), the flag is
cleared and one period awaited, then the compare values `1, 2, ..., 63` are
written in increasing order, each followed by one wait, with no pin-mode
change during the ramp; only then is the pin level set low, the pin put back
into open-drain mode, and the compare value reset to `0`. -/
theorem power_on_ramp (b : Board) (s : World) (h : polls_end s.uif) :
    ∃ N n0 ns, List.length ns = 63 ∧
      oc_values (ramp_events 1 ns) = List.range' 1 63 ∧
      List.Pairwise (fun x y => x < y) (oc_values (ramp_events 1 ns)) ∧
      oc_values (power_on_events b n0 ns) = List.range' 1 63 ++ [0] ∧
      mode_changes (pwm_wait_events n0 ++ ramp_events 1 ns) = [] ∧
      ∀ fuel, N ≤ fuel → ∃ s',
        platform_target_set_power b fuel true s = some (true, s') ∧
        s'.trace = s.trace ++ power_on_events b n0 ns ∧
        s'.ccr3 = 0 ∧
        ∀ i, b.PWR_BR_PIN.testBit i = true →
          s'.pincfg b.PWR_BR_PORT i =
            (GpioMode.GPIO_MODE_OUTPUT_50_MHZ, GpioCnf.GPIO_CNF_OUTPUT_OPENDRAIN) ∧
          s'.odr b.PWR_BR_PORT i = false := by
  obtain ⟨N, n0, ns, k, hlen, hrun⟩ := set_power_on_some b s h
  have hramp : oc_values (ramp_events 1 ns) = List.range' 1 63 := by
    rw [oc_values_ramp, hlen]
  refine ⟨N, n0, ns, hlen, hramp, ?_, ?_, ?_, ?_⟩
  · rw [hramp]
    exact List.pairwise_lt_range' 1 63
  · unfold power_on_events
    rw [oc_values_append, oc_values_append, oc_values_append, oc_values_wait, hramp]
    simp [oc_values]
  · rw [mode_changes_append, mode_changes_wait, mode_changes_ramp]
    rfl
  · intro fuel hfuel
    refine ⟨_, hrun fuel hfuel, rfl, rfl, ?_⟩
    intro i hi
    simp [hi]

/-- Witness of C3 on the sample board, with the update flag set on every third
poll. -/
theorem power_on_ramp_witness :
    polls_end sample_world.uif ∧
    ∃ N n0 ns, List.length ns = 63 ∧
      oc_values (ramp_events 1 ns) = List.range' 1 63 ∧
      List.Pairwise (fun x y => x < y) (oc_values (ramp_events 1 ns)) ∧
      oc_values (power_on_events sample_board n0 ns) = List.range' 1 63 ++ [0] ∧
      mode_changes (pwm_wait_events n0 ++ ramp_events 1 ns) = [] ∧
      ∀ fuel, N ≤ fuel → ∃ s',
        platform_target_set_power sample_board fuel true sample_world = some (true, s') ∧
        s'.trace = sample_world.trace ++ power_on_events sample_board n0 ns ∧
        s'.ccr3 = 0 ∧
        ∀ i, sample_board.PWR_BR_PIN.testBit i = true →
          s'.pincfg sample_board.PWR_BR_PORT i =
            (GpioMode.GPIO_MODE_OUTPUT_50_MHZ, GpioCnf.GPIO_CNF_OUTPUT_OPENDRAIN) ∧
          s'.odr sample_board.PWR_BR_PORT i = false :=
  ⟨sample_world_polls_end, power_on_ramp sample_board sample_world sample_world_polls_end⟩

/-- Claim C4.  A power-off call returns `true` after exactly one hardware
access, the write that drives the power pin high (the disabled level); the
log gains that single event and the output latch of the power pin is the only
state that changes: no compare write, no pin-mode change, no timer-flag
access, no wait. -/
theorem power_off_immediate (b : Board) (fuel : Nat) (s : World) :
    platform_target_set_power b fuel false s = some (true,
      { s with
        odr := fun p i =>
          if p = b.PWR_BR_PORT ∧ b.PWR_BR_PIN.testBit i = true then true else s.odr p i
        trace := s.trace ++ [HwEvent.gpio_write b.PWR_BR_PORT b.PWR_BR_PIN true] }) := by
  simp [platform_target_set_power, gpio_set_val_eq]

/-- Claim C5.  For both values of `p`, `platform_target_set_power p` returns
`true` (for `p = true`: provided its waits end; and whenever it returns at all
the value is `true`), its only pin-level write drives the power pin to `!p`,
and in any state where the power pin reads back the level so written
`platform_target_get_power` returns `p`. -/
theorem set_power_then_get_power (b : Board) (s : World) (p : Bool)
    (hpin : pin_mask_ok b.PWR_BR_PIN) (hend : p = true → polls_end s.uif) :
    (∀ fuel r, platform_target_set_power b fuel p s = some r → r.1 = true) ∧
    ∃ N, ∀ fuel, N ≤ fuel → ∃ s' tr,
      platform_target_set_power b fuel p s = some (true, s') ∧
      s'.trace = s.trace ++ tr ∧
      pin_writes tr = [HwEvent.gpio_write b.PWR_BR_PORT b.PWR_BR_PIN (!p)] ∧
      (∀ i, b.PWR_BR_PIN.testBit i = true → s'.odr b.PWR_BR_PORT i = !p) ∧
      ∀ t : World,
        (∀ i, i < 16 → b.PWR_BR_PIN.testBit i = true →
          t.idr b.PWR_BR_PORT i = s'.odr b.PWR_BR_PORT i) →
        platform_target_get_power b t = p := by
  have hget : ∀ (s' t : World),
      (∀ i, b.PWR_BR_PIN.testBit i = true → s'.odr b.PWR_BR_PORT i = !p) →
      (∀ i, i < 16 → b.PWR_BR_PIN.testBit i = true →
        t.idr b.PWR_BR_PORT i = s'.odr b.PWR_BR_PORT i) →
      platform_target_get_power b t = p := by
    intro s' t hodr hread
    have := gpio_get_eq_of_bits b.PWR_BR_PORT b.PWR_BR_PIN t (!p) hpin
      (fun i hi hb => by rw [hread i hi hb, hodr i hb])
    simp [platform_target_get_power, this]
  refine ⟨?_, ?_⟩
  · intro fuel r hr
    unfold platform_target_set_power at hr
    split at hr
    · exact Option.noConfusion hr
    · rw [← Option.some.inj hr]
  cases p with
  | false =>
    refine ⟨0, ?_⟩
    intro fuel _
    have hodr : ∀ i, b.PWR_BR_PIN.testBit i = true →
        (gpio_set_val b.PWR_BR_PORT b.PWR_BR_PIN true s).odr b.PWR_BR_PORT i = !false := by
      intro i hi
      simp [gpio_set_val_eq, hi]
    refine ⟨gpio_set_val b.PWR_BR_PORT b.PWR_BR_PIN true s,
      [HwEvent.gpio_write b.PWR_BR_PORT b.PWR_BR_PIN true], ?_, ?_, ?_, hodr, ?_⟩
    · simp [platform_target_set_power]
    · simp [gpio_set_val_eq]
    · simp [pin_writes]
    · intro t ht
      exact hget _ t hodr ht
  | true =>
    obtain ⟨N, n0, ns, k, _, hrun⟩ := set_power_on_some b s (hend rfl)
    refine ⟨N, ?_⟩
    intro fuel hfuel
    refine ⟨_, power_on_events b n0 ns, hrun fuel hfuel, rfl, ?_, ?_, ?_⟩
    · simpa using pin_writes_power_on b n0 ns
    · intro i hi
      simp [hi]
    · intro t ht
      refine hget _ t ?_ ht
      intro i hi
      simp [hi]

/-- Witness of C5 on the sample board, for power-on and for power-off. -/
theorem set_power_then_get_power_witness :
    pin_mask_ok sample_board.PWR_BR_PIN ∧ polls_end sample_world.uif ∧
    (∃ N, ∀ fuel, N ≤ fuel → ∃ s' tr,
      platform_target_set_power sample_board fuel true sample_world = some (true, s') ∧
      s'.trace = sample_world.trace ++ tr ∧
      pin_writes tr =
        [HwEvent.gpio_write sample_board.PWR_BR_PORT sample_board.PWR_BR_PIN (!true)] ∧
      (∀ i, sample_board.PWR_BR_PIN.testBit i = true →
        s'.odr sample_board.PWR_BR_PORT i = !true) ∧
      ∀ t : World,
        (∀ i, i < 16 → sample_board.PWR_BR_PIN.testBit i = true →
          t.idr sample_board.PWR_BR_PORT i = s'.odr sample_board.PWR_BR_PORT i) →
        platform_target_get_power sample_board t = true) ∧
    (∃ N, ∀ fuel, N ≤ fuel → ∃ s' tr,
      platform_target_set_power sample_board fuel false sample_world = some (true, s') ∧
      s'.trace = sample_world.trace ++ tr ∧
      pin_writes tr =
        [HwEvent.gpio_write sample_board.PWR_BR_PORT sample_board.PWR_BR_PIN (!false)] ∧
      (∀ i, sample_board.PWR_BR_PIN.testBit i = true →
        s'.odr sample_board.PWR_BR_PORT i = !false) ∧
      ∀ t : World,
        (∀ i, i < 16 → sample_board.PWR_BR_PIN.testBit i = true →
          t.idr sample_board.PWR_BR_PORT i = s'.odr sample_board.PWR_BR_PORT i) →
        platform_target_get_power sample_board t = false) :=
  ⟨by decide, sample_world_polls_end,
    (set_power_then_get_power sample_board sample_world true (by decide)
      (fun _ => sample_world_polls_end)).2,
    (set_power_then_get_power sample_board sample_world false (by decide)
      (fun h => Bool.noConfusion h)).2⟩

/-- Claim C6.  For every byte `b`, `platform_spi_chip_select b` returns
`false` exactly when the low seven bits of `b` are none of the four device
identifiers, and whenever it returns `false` the state, log included, is
unchanged: no pin write is made, whatever the high bit of `b`. -/
theorem chip_select_rejects_unknown (b : Board) (device_select : Nat) (s : World) :
    ((platform_spi_chip_select b device_select s).1 = false ↔
      (device_select &&& 0x7f ≠ b.SPI_DEVICE_INT_FLASH ∧
        device_select &&& 0x7f ≠ b.SPI_DEVICE_EXT_FLASH ∧
        device_select &&& 0x7f ≠ b.SPI_DEVICE_SDCARD ∧
        device_select &&& 0x7f ≠ b.SPI_DEVICE_DISPLAY)) ∧
    ((platform_spi_chip_select b device_select s).1 = false →
      (platform_spi_chip_select b device_select s).2 = s) := by
  simp only [platform_spi_chip_select]
  by_cases h1 : device_select &&& 0x7f = b.SPI_DEVICE_INT_FLASH
  · rw [if_pos h1]
    simp [h1]
  · by_cases h2 : device_select &&& 0x7f = b.SPI_DEVICE_EXT_FLASH
    · rw [if_neg h1, if_pos h2]
      simp [h2]
    · by_cases h3 : device_select &&& 0x7f = b.SPI_DEVICE_SDCARD
      · rw [if_neg h1, if_neg h2, if_pos h3]
        simp [h3]
      · by_cases h4 : device_select &&& 0x7f = b.SPI_DEVICE_DISPLAY
        · rw [if_neg h1, if_neg h2, if_neg h3, if_pos h4]
          simp [h4]
        · rw [if_neg h1, if_neg h2, if_neg h3, if_neg h4]
          simp [h1, h2, h3, h4]

/-- Claim C7.  For every byte `b` whose low seven bits name a device of the
chip-select table, `platform_spi_chip_select b` returns `true` and makes
exactly one pin write, to the port and pin bound to that device, with level
the inverse of bit 7 of `b`; nothing else changes.  Hence after selecting a
device and then a second one bound to a different pin, the first line still
holds the level written by the first call and the second line the level
written by the second: without a deselect both stay asserted. -/
theorem chip_select_drives_bound_pin (b : Board) (hd : devices_distinct b)
    (device_select : Nat) (s : World) (e : Nat × Nat × Nat) (he : e ∈ cs_table b)
    (hdev : device_select &&& 0x7f = e.1) :
    platform_spi_chip_select b device_select s = (true,
      { s with
        odr := fun p i =>
          if p = e.2.1 ∧ e.2.2.testBit i = true then !device_select.testBit 7 else s.odr p i
        trace := s.trace ++ [HwEvent.gpio_write e.2.1 e.2.2 (!device_select.testBit 7)] }) ∧
    ∀ (second : Nat) (e2 : Nat × Nat × Nat), e2 ∈ cs_table b → second &&& 0x7f = e2.1 →
      (e.2.1 ≠ e2.2.1 ∨ e.2.2 &&& e2.2.2 = 0) →
      (platform_spi_chip_select b second (platform_spi_chip_select b device_select s).2).1 = true ∧
      (∀ i, e.2.2.testBit i = true →
        (platform_spi_chip_select b second
          (platform_spi_chip_select b device_select s).2).2.odr e.2.1 i =
          !device_select.testBit 7) ∧
      (∀ i, e2.2.2.testBit i = true →
        (platform_spi_chip_select b second
          (platform_spi_chip_select b device_select s).2).2.odr e2.2.1 i =
          !second.testBit 7) := by
  have key : ∀ (d : Nat) (w : World) (x : Nat × Nat × Nat), x ∈ cs_table b → d &&& 0x7f = x.1 →
      platform_spi_chip_select b d w = (true,
        { w with
          odr := fun p i => if p = x.2.1 ∧ x.2.2.testBit i = true then !d.testBit 7 else w.odr p i
          trace := w.trace ++ [HwEvent.gpio_write x.2.1 x.2.2 (!d.testBit 7)] }) := by
    intro d w x hx hdx
    simp only [devices_distinct, cs_table, List.map_cons, List.map_nil, List.nodup_cons,
      List.mem_cons, List.mem_singleton, not_or, List.not_mem_nil, not_false_eq_true,
      List.nodup_nil, and_true] at hd
    obtain ⟨⟨h12, h13, h14⟩, ⟨h23, h24⟩, h34⟩ := hd
    simp only [cs_table, List.mem_cons, List.mem_singleton, List.not_mem_nil, or_false] at hx
    unfold platform_spi_chip_select
    simp only [and_128_eq_zero_iff, gpio_set_val_eq]
    rcases hx with rfl | rfl | rfl | rfl
    · simp [hdx]
    · simp [hdx, Ne.symm h12]
    · simp [hdx, Ne.symm h13, Ne.symm h23]
    · simp [hdx, Ne.symm h14, Ne.symm h24, Ne.symm h34]
  refine ⟨key device_select s e he hdev, ?_⟩
  intro second e2 he2 hdev2 hdiff
  rw [key device_select s e he hdev, key second _ e2 he2 hdev2]
  refine ⟨rfl, ?_, ?_⟩
  · intro i hi
    have hno : ¬ (e.2.1 = e2.2.1 ∧ e2.2.2.testBit i = true) := by
      rintro ⟨hp, hb⟩
      rcases hdiff with hne | hand
      · exact hne hp
      · have := Nat.testBit_and e.2.2 e2.2.2 i
        rw [hand, hi, hb] at this
        simp at this
    simp [hno, hi]
  · intro i hi
    simp [hi]

/-- Witness of C7 on the sample board: selecting the SD card (`0x02`) and then
the display (`0x03`) leaves both select lines at the level written. -/
theorem chip_select_drives_bound_pin_witness :
    devices_distinct sample_board ∧
    (sample_board.SPI_DEVICE_SDCARD, sample_board.AUX_PORT, sample_board.AUX_SDCS) ∈
      cs_table sample_board ∧
    (platform_spi_chip_select sample_board 0x02 sample_world).1 = true ∧
    (platform_spi_chip_select sample_board 0x02 sample_world).2.trace =
      [HwEvent.gpio_write sample_board.AUX_PORT sample_board.AUX_SDCS true] ∧
    (platform_spi_chip_select sample_board 0x03
      (platform_spi_chip_select sample_board 0x02 sample_world).2).1 = true ∧
    (∀ i, sample_board.AUX_SDCS.testBit i = true →
      (platform_spi_chip_select sample_board 0x03
        (platform_spi_chip_select sample_board 0x02 sample_world).2).2.odr
          sample_board.AUX_PORT i = true) ∧
    (∀ i, sample_board.AUX_DCS.testBit i = true →
      (platform_spi_chip_select sample_board 0x03
        (platform_spi_chip_select sample_board 0x02 sample_world).2).2.odr
          sample_board.AUX_PORT i = true) :=
  have hd : devices_distinct sample_board := by decide
  have he : (sample_board.SPI_DEVICE_SDCARD, sample_board.AUX_PORT, sample_board.AUX_SDCS) ∈
      cs_table sample_board := by decide
  have h := chip_select_drives_bound_pin sample_board hd 0x02 sample_world
    (sample_board.SPI_DEVICE_SDCARD, sample_board.AUX_PORT, sample_board.AUX_SDCS) he
    (by decide)
  have h2 := h.2 0x03
    (sample_board.SPI_DEVICE_DISPLAY, sample_board.AUX_PORT, sample_board.AUX_DCS)
    (by decide) (by decide) (Or.inr (by decide))
  ⟨hd, he, by rw [h.1], by rw [h.1]; rfl, h2.1, h2.2.1, h2.2.2⟩

/-- Claim C8.  From every prior state, one run of `exti15_10_isr` makes
exactly two hardware accesses: it sets the USB pull-up pin to push-pull output
mode when the VBUS pin is sensed high and to floating input mode otherwise,
then acknowledges the interrupt line once.  The resulting pull-up mode depends
on the sensed level only.  Two runs in a row with VBUS sensed high leave the
pin driven after each and acknowledge twice, and `setup_vbus_irq` leaves the
pull-up mode matching the level sensed at setup. -/
theorem vbus_handler_mode_and_ack (b : Board) (s : World) :
    (exti15_10_isr b s).trace = s.trace ++
      [HwEvent.gpio_set_mode b.USB_PU_PORT
          (if gpio_get b.USB_VBUS_PORT b.USB_VBUS_PIN s = true
            then GpioMode.GPIO_MODE_OUTPUT_10_MHZ else GpioMode.GPIO_MODE_INPUT)
          (if gpio_get b.USB_VBUS_PORT b.USB_VBUS_PIN s = true
            then GpioCnf.GPIO_CNF_OUTPUT_PUSHPULL else GpioCnf.GPIO_CNF_INPUT_FLOAT)
          b.USB_PU_PIN,
        HwEvent.exti_reset_request b.USB_VBUS_PIN] ∧
    (∀ i, b.USB_PU_PIN.testBit i = true →
      (exti15_10_isr b s).pincfg b.USB_PU_PORT i =
        if gpio_get b.USB_VBUS_PORT b.USB_VBUS_PIN s = true
        then (GpioMode.GPIO_MODE_OUTPUT_10_MHZ, GpioCnf.GPIO_CNF_OUTPUT_PUSHPULL)
        else (GpioMode.GPIO_MODE_INPUT, GpioCnf.GPIO_CNF_INPUT_FLOAT)) ∧
    ack_count b.USB_VBUS_PIN (exti15_10_isr b s).trace =
      ack_count b.USB_VBUS_PIN s.trace + 1 ∧
    (gpio_get b.USB_VBUS_PORT b.USB_VBUS_PIN s = true →
      (∀ i, b.USB_PU_PIN.testBit i = true →
        (exti15_10_isr b s).pincfg b.USB_PU_PORT i =
          (GpioMode.GPIO_MODE_OUTPUT_10_MHZ, GpioCnf.GPIO_CNF_OUTPUT_PUSHPULL) ∧
        (exti15_10_isr b (exti15_10_isr b s)).pincfg b.USB_PU_PORT i =
          (GpioMode.GPIO_MODE_OUTPUT_10_MHZ, GpioCnf.GPIO_CNF_OUTPUT_PUSHPULL)) ∧
      ack_count b.USB_VBUS_PIN (exti15_10_isr b (exti15_10_isr b s)).trace =
        ack_count b.USB_VBUS_PIN s.trace + 2) ∧
    (∀ i, b.USB_PU_PIN.testBit i = true →
      (setup_vbus_irq b s).pincfg b.USB_PU_PORT i =
        if gpio_get b.USB_VBUS_PORT b.USB_VBUS_PIN s = true
        then (GpioMode.GPIO_MODE_OUTPUT_10_MHZ, GpioCnf.GPIO_CNF_OUTPUT_PUSHPULL)
        else (GpioMode.GPIO_MODE_INPUT, GpioCnf.GPIO_CNF_INPUT_FLOAT)) := by
  have hidr : ∀ w : World, (exti15_10_isr b w).idr = w.idr := by
    intro w
    by_cases hw : gpio_get b.USB_VBUS_PORT b.USB_VBUS_PIN w = true <;>
      simp [exti15_10_isr, hw, gpio_set_mode, exti_reset_request, World.log]
  have hsense : gpio_get b.USB_VBUS_PORT b.USB_VBUS_PIN (exti15_10_isr b s) =
      gpio_get b.USB_VBUS_PORT b.USB_VBUS_PIN s := by
    simp only [gpio_get, hidr]
  have htrace : ∀ w : World, (exti15_10_isr b w).trace = w.trace ++
      [HwEvent.gpio_set_mode b.USB_PU_PORT
          (if gpio_get b.USB_VBUS_PORT b.USB_VBUS_PIN w = true
            then GpioMode.GPIO_MODE_OUTPUT_10_MHZ else GpioMode.GPIO_MODE_INPUT)
          (if gpio_get b.USB_VBUS_PORT b.USB_VBUS_PIN w = true
            then GpioCnf.GPIO_CNF_OUTPUT_PUSHPULL else GpioCnf.GPIO_CNF_INPUT_FLOAT)
          b.USB_PU_PIN,
        HwEvent.exti_reset_request b.USB_VBUS_PIN] := by
    intro w
    by_cases hw : gpio_get b.USB_VBUS_PORT b.USB_VBUS_PIN w = true <;>
      simp [exti15_10_isr, hw, gpio_set_mode, exti_reset_request, World.log]
  have hmode : ∀ (w : World) (i : Nat), b.USB_PU_PIN.testBit i = true →
      (exti15_10_isr b w).pincfg b.USB_PU_PORT i =
        if gpio_get b.USB_VBUS_PORT b.USB_VBUS_PIN w = true
        then (GpioMode.GPIO_MODE_OUTPUT_10_MHZ, GpioCnf.GPIO_CNF_OUTPUT_PUSHPULL)
        else (GpioMode.GPIO_MODE_INPUT, GpioCnf.GPIO_CNF_INPUT_FLOAT) := by
    intro w i hi
    by_cases hw : gpio_get b.USB_VBUS_PORT b.USB_VBUS_PIN w = true <;>
      simp [exti15_10_isr, hw, gpio_set_mode, exti_reset_request, World.log, hi]
  have hack : ∀ w : World, ack_count b.USB_VBUS_PIN (exti15_10_isr b w).trace =
      ack_count b.USB_VBUS_PIN w.trace + 1 := by
    intro w
    rw [htrace w]
    simp [ack_count, List.count_cons]
  refine ⟨htrace s, hmode s, hack s, ?_, ?_⟩
  · intro hs
    refine ⟨?_, ?_⟩
    · intro i hi
      refine ⟨?_, ?_⟩
      · rw [hmode s i hi, if_pos hs]
      · rw [hmode _ i hi, hsense, if_pos hs]
    · rw [hack, hack]
  · intro i hi
    have hsetup : gpio_get b.USB_VBUS_PORT b.USB_VBUS_PIN
        (s |> (fun w => w.log (HwEvent.nvic_set_priority b.USB_VBUS_IRQ b.IRQ_PRI_USB_VBUS))
          |> (fun w => w.log (HwEvent.nvic_enable_irq b.USB_VBUS_IRQ))
          |> gpio_set b.USB_VBUS_PORT b.USB_VBUS_PIN
          |> gpio_set b.USB_PU_PORT b.USB_PU_PIN
          |> gpio_set_mode b.USB_VBUS_PORT GpioMode.GPIO_MODE_INPUT
              GpioCnf.GPIO_CNF_INPUT_PULL_UPDOWN b.USB_VBUS_PIN
          |> (fun w => w.log (HwEvent.exti_select_source b.USB_VBUS_PIN b.USB_VBUS_PORT))
          |> (fun w => w.log (HwEvent.exti_set_trigger_both b.USB_VBUS_PIN))
          |> (fun w => w.log (HwEvent.exti_enable_request b.USB_VBUS_PIN))) =
        gpio_get b.USB_VBUS_PORT b.USB_VBUS_PIN s := by
      simp [gpio_get, gpio_set, gpio_set_mode, World.log]
    unfold setup_vbus_irq
    rw [hmode _ i hi, hsetup]

/-- Claim C9, as the code has it.  Provided the two bus selectors differ:
for the external bus `platform_spi_init` enables the SPI1 clock, pulses the SPI1
reset, puts the TCK and TDI pins in alternate-function push-pull mode and
returns `true`, and `platform_spi_deinit` disables the SPI1 clock, puts TCK and
TDI back in plain push-pull output mode and returns `true`; for the auxiliary
bus `platform_spi_init` enables the SPI2 clock, pulses the SPI2 reset and
returns `true`, and `platform_spi_deinit` disables the SPI2 clock and returns
`true`, neither changing any pin mode.  No call touches the clock or reset of
the other bus. -/
theorem spi_init_deinit_per_bus (b : Board) (hbus : b.SPI_BUS_INTERNAL ≠ b.SPI_BUS_EXTERNAL)
    (s : World) :
    ((platform_spi_init b b.SPI_BUS_EXTERNAL s).1 = true ∧
      (platform_spi_init b b.SPI_BUS_EXTERNAL s).2.trace = s.trace ++
        [HwEvent.rcc_periph_clock_enable RccPeriph.RCC_SPI1,
          HwEvent.rcc_periph_reset_pulse RccReset.RST_SPI1,
          HwEvent.gpio_set_mode b.TCK_PORT GpioMode.GPIO_MODE_OUTPUT_50_MHZ
            GpioCnf.GPIO_CNF_OUTPUT_ALTFN_PUSHPULL b.TCK_PIN,
          HwEvent.gpio_set_mode b.TDI_PORT GpioMode.GPIO_MODE_OUTPUT_50_MHZ
            GpioCnf.GPIO_CNF_OUTPUT_ALTFN_PUSHPULL b.TDI_PIN,
          HwEvent.gpio_write b.TMS_DIR_PORT b.TMS_DIR_PIN true,
          HwEvent.spi_init_master b.EXT_SPI,
          HwEvent.spi_enable b.EXT_SPI] ∧
      (platform_spi_init b b.SPI_BUS_EXTERNAL s).2.clk RccPeriph.RCC_SPI1 = true ∧
      (platform_spi_init b b.SPI_BUS_EXTERNAL s).2.clk RccPeriph.RCC_SPI2 =
        s.clk RccPeriph.RCC_SPI2 ∧
      (∀ i, b.TCK_PIN.testBit i = true →
        (platform_spi_init b b.SPI_BUS_EXTERNAL s).2.pincfg b.TCK_PORT i =
          (GpioMode.GPIO_MODE_OUTPUT_50_MHZ, GpioCnf.GPIO_CNF_OUTPUT_ALTFN_PUSHPULL)) ∧
      (∀ i, b.TDI_PIN.testBit i = true →
        (platform_spi_init b b.SPI_BUS_EXTERNAL s).2.pincfg b.TDI_PORT i =
          (GpioMode.GPIO_MODE_OUTPUT_50_MHZ, GpioCnf.GPIO_CNF_OUTPUT_ALTFN_PUSHPULL))) ∧
    ((platform_spi_init b b.SPI_BUS_INTERNAL s).1 = true ∧
      (platform_spi_init b b.SPI_BUS_INTERNAL s).2.trace = s.trace ++
        [HwEvent.rcc_periph_clock_enable RccPeriph.RCC_SPI2,
          HwEvent.rcc_periph_reset_pulse RccReset.RST_SPI2,
          HwEvent.spi_init_master b.AUX_SPI,
          HwEvent.spi_enable b.AUX_SPI] ∧
      (platform_spi_init b b.SPI_BUS_INTERNAL s).2.clk RccPeriph.RCC_SPI2 = true ∧
      (platform_spi_init b b.SPI_BUS_INTERNAL s).2.clk RccPeriph.RCC_SPI1 =
        s.clk RccPeriph.RCC_SPI1 ∧
      (platform_spi_init b b.SPI_BUS_INTERNAL s).2.pincfg = s.pincfg) ∧
    ((platform_spi_deinit b b.SPI_BUS_EXTERNAL s).1 = true ∧
      (platform_spi_deinit b b.SPI_BUS_EXTERNAL s).2.trace = s.trace ++
        [HwEvent.spi_disable b.EXT_SPI,
          HwEvent.rcc_periph_clock_disable RccPeriph.RCC_SPI1,
          HwEvent.gpio_set_mode b.TCK_PORT GpioMode.GPIO_MODE_OUTPUT_50_MHZ
            GpioCnf.GPIO_CNF_OUTPUT_PUSHPULL b.TCK_PIN,
          HwEvent.gpio_set_mode b.TDI_PORT GpioMode.GPIO_MODE_OUTPUT_50_MHZ
            GpioCnf.GPIO_CNF_OUTPUT_PUSHPULL b.TDI_PIN] ∧
      (platform_spi_deinit b b.SPI_BUS_EXTERNAL s).2.clk RccPeriph.RCC_SPI1 = false ∧
      (platform_spi_deinit b b.SPI_BUS_EXTERNAL s).2.clk RccPeriph.RCC_SPI2 =
        s.clk RccPeriph.RCC_SPI2 ∧
      (∀ i, b.TCK_PIN.testBit i = true →
        (platform_spi_deinit b b.SPI_BUS_EXTERNAL s).2.pincfg b.TCK_PORT i =
          (GpioMode.GPIO_MODE_OUTPUT_50_MHZ, GpioCnf.GPIO_CNF_OUTPUT_PUSHPULL)) ∧
      (∀ i, b.TDI_PIN.testBit i = true →
        (platform_spi_deinit b b.SPI_BUS_EXTERNAL s).2.pincfg b.TDI_PORT i =
          (GpioMode.GPIO_MODE_OUTPUT_50_MHZ, GpioCnf.GPIO_CNF_OUTPUT_PUSHPULL))) ∧
    ((platform_spi_deinit b b.SPI_BUS_INTERNAL s).1 = true ∧
      (platform_spi_deinit b b.SPI_BUS_INTERNAL s).2.trace = s.trace ++
        [HwEvent.spi_disable b.AUX_SPI,
          HwEvent.rcc_periph_clock_disable RccPeriph.RCC_SPI2] ∧
      (platform_spi_deinit b b.SPI_BUS_INTERNAL s).2.clk RccPeriph.RCC_SPI2 = false ∧
      (platform_spi_deinit b b.SPI_BUS_INTERNAL s).2.clk RccPeriph.RCC_SPI1 =
        s.clk RccPeriph.RCC_SPI1 ∧
      (platform_spi_deinit b b.SPI_BUS_INTERNAL s).2.pincfg = s.pincfg) := by
  refine ⟨⟨rfl, ?_, ?_, ?_, ?_, ?_⟩, ⟨rfl, ?_, ?_, ?_, ?_⟩, ⟨rfl, ?_, ?_, ?_, ?_, ?_⟩,
    ⟨rfl, ?_, ?_, ?_, ?_⟩⟩
  · simp [platform_spi_init, rcc_periph_clock_enable, rcc_periph_reset_pulse, gpio_set_mode,
      gpio_set, spi_init_master, spi_enable, World.log]
  · simp [platform_spi_init, rcc_periph_clock_enable, rcc_periph_reset_pulse, gpio_set_mode,
      gpio_set, spi_init_master, spi_enable, World.log]
  · simp [platform_spi_init, rcc_periph_clock_enable, rcc_periph_reset_pulse, gpio_set_mode,
      gpio_set, spi_init_master, spi_enable, World.log]
  · intro i hi
    by_cases hc : b.TCK_PORT = b.TDI_PORT ∧ b.TDI_PIN.testBit i = true <;>
      simp [platform_spi_init, rcc_periph_clock_enable, rcc_periph_reset_pulse, gpio_set_mode,
        gpio_set, spi_init_master, spi_enable, World.log, hi, hc]
  · intro i hi
    simp [platform_spi_init, rcc_periph_clock_enable, rcc_periph_reset_pulse, gpio_set_mode,
      gpio_set, spi_init_master, spi_enable, World.log, hi]
  · simp [platform_spi_init, rcc_periph_clock_enable, rcc_periph_reset_pulse, gpio_set_mode,
      gpio_set, spi_init_master, spi_enable, World.log, hbus]
  · simp [platform_spi_init, rcc_periph_clock_enable, rcc_periph_reset_pulse, gpio_set_mode,
      gpio_set, spi_init_master, spi_enable, World.log, hbus]
  · simp [platform_spi_init, rcc_periph_clock_enable, rcc_periph_reset_pulse, gpio_set_mode,
      gpio_set, spi_init_master, spi_enable, World.log, hbus]
  · simp [platform_spi_init, rcc_periph_clock_enable, rcc_periph_reset_pulse, gpio_set_mode,
      gpio_set, spi_init_master, spi_enable, World.log, hbus]
  · simp [platform_spi_deinit, rcc_periph_clock_disable, gpio_set_mode, spi_disable, World.log]
  · simp [platform_spi_deinit, rcc_periph_clock_disable, gpio_set_mode, spi_disable, World.log]
  · simp [platform_spi_deinit, rcc_periph_clock_disable, gpio_set_mode, spi_disable, World.log]
  · intro i hi
    by_cases hc : b.TCK_PORT = b.TDI_PORT ∧ b.TDI_PIN.testBit i = true <;>
      simp [platform_spi_deinit, rcc_periph_clock_disable, gpio_set_mode, spi_disable,
        World.log, hi, hc]
  · intro i hi
    simp [platform_spi_deinit, rcc_periph_clock_disable, gpio_set_mode, spi_disable,
      World.log, hi]
  · simp [platform_spi_deinit, rcc_periph_clock_disable, gpio_set_mode, spi_disable, World.log,
      hbus]
  · simp [platform_spi_deinit, rcc_periph_clock_disable, gpio_set_mode, spi_disable, World.log,
      hbus]
  · simp [platform_spi_deinit, rcc_periph_clock_disable, gpio_set_mode, spi_disable, World.log,
      hbus]
  · simp [platform_spi_deinit, rcc_periph_clock_disable, gpio_set_mode, spi_disable, World.log,
      hbus]

/-- Witness of the amended C9 on the sample board: the accesses of
`platform_spi_init` for the external and for the auxiliary bus. -/
theorem spi_init_deinit_per_bus_witness :
    sample_board.SPI_BUS_INTERNAL ≠ sample_board.SPI_BUS_EXTERNAL ∧
    (platform_spi_init sample_board sample_board.SPI_BUS_EXTERNAL sample_world).2.trace =
      sample_world.trace ++
        [HwEvent.rcc_periph_clock_enable RccPeriph.RCC_SPI1,
          HwEvent.rcc_periph_reset_pulse RccReset.RST_SPI1,
          HwEvent.gpio_set_mode sample_board.TCK_PORT GpioMode.GPIO_MODE_OUTPUT_50_MHZ
            GpioCnf.GPIO_CNF_OUTPUT_ALTFN_PUSHPULL sample_board.TCK_PIN,
          HwEvent.gpio_set_mode sample_board.TDI_PORT GpioMode.GPIO_MODE_OUTPUT_50_MHZ
            GpioCnf.GPIO_CNF_OUTPUT_ALTFN_PUSHPULL sample_board.TDI_PIN,
          HwEvent.gpio_write sample_board.TMS_DIR_PORT sample_board.TMS_DIR_PIN true,
          HwEvent.spi_init_master sample_board.EXT_SPI,
          HwEvent.spi_enable sample_board.EXT_SPI] ∧
    (platform_spi_init sample_board sample_board.SPI_BUS_INTERNAL sample_world).2.trace =
      sample_world.trace ++
        [HwEvent.rcc_periph_clock_enable RccPeriph.RCC_SPI2,
          HwEvent.rcc_periph_reset_pulse RccReset.RST_SPI2,
          HwEvent.spi_init_master sample_board.AUX_SPI,
          HwEvent.spi_enable sample_board.AUX_SPI] ∧
    (platform_spi_init sample_board sample_board.SPI_BUS_INTERNAL sample_world).2.pincfg =
      sample_world.pincfg :=
  have hbus : sample_board.SPI_BUS_INTERNAL ≠ sample_board.SPI_BUS_EXTERNAL := by decide
  have h := spi_init_deinit_per_bus sample_board hbus sample_world
  ⟨hbus, h.1.2.1, h.2.1.2.1, h.2.1.2.2.2.2⟩

/-- Counterexample to C9 as stated: on the sample board, from a state where
every pin is a floating input, `platform_spi_init` and `platform_spi_deinit`
for the auxiliary bus make no pin-mode change at all, so no pin of that bus
is put in alternate-function mode or reverted to push-pull output mode. -/
theorem spi_aux_bus_no_pin_mode_change :
    sample_board.SPI_BUS_INTERNAL ≠ sample_board.SPI_BUS_EXTERNAL ∧
    (platform_spi_init sample_board sample_board.SPI_BUS_INTERNAL sample_world).2.trace =
      [HwEvent.rcc_periph_clock_enable RccPeriph.RCC_SPI2,
        HwEvent.rcc_periph_reset_pulse RccReset.RST_SPI2,
        HwEvent.spi_init_master 2,
        HwEvent.spi_enable 2] ∧
    mode_changes
      (platform_spi_init sample_board sample_board.SPI_BUS_INTERNAL sample_world).2.trace = [] ∧
    ((platform_spi_init sample_board sample_board.SPI_BUS_INTERNAL sample_world).2.pincfg =
      fun _ _ => (GpioMode.GPIO_MODE_INPUT, GpioCnf.GPIO_CNF_INPUT_FLOAT)) ∧
    (platform_spi_deinit sample_board sample_board.SPI_BUS_INTERNAL sample_world).2.trace =
      [HwEvent.spi_disable 2,
        HwEvent.rcc_periph_clock_disable RccPeriph.RCC_SPI2] ∧
    mode_changes
      (platform_spi_deinit sample_board sample_board.SPI_BUS_INTERNAL sample_world).2.trace = [] ∧
    ((platform_spi_deinit sample_board sample_board.SPI_BUS_INTERNAL sample_world).2.pincfg =
      fun _ _ => (GpioMode.GPIO_MODE_INPUT, GpioCnf.GPIO_CNF_INPUT_FLOAT)) :=
  ⟨by decide, rfl, rfl, rfl, rfl, rfl, rfl⟩

/-- Claim C10, as the code has it.  For every bus selector value other than
the external bus, defined or not, `platform_spi_init` and
`platform_spi_deinit` do not reject the call: they return `true` after making
the register writes of the auxiliary bus (init: SPI2 clock on, SPI2 reset
pulse, auxiliary controller set up and enabled; deinit: auxiliary controller
disabled, SPI2 clock off). -/
theorem spi_init_deinit_other_selector (b : Board) (bus : Nat) (s : World)
    (h : bus ≠ b.SPI_BUS_EXTERNAL) :
    platform_spi_init b bus s = (true,
      { s with
        clk := fun q => if q = RccPeriph.RCC_SPI2 then true else s.clk q
        trace := s.trace ++
          [HwEvent.rcc_periph_clock_enable RccPeriph.RCC_SPI2,
            HwEvent.rcc_periph_reset_pulse RccReset.RST_SPI2,
            HwEvent.spi_init_master b.AUX_SPI,
            HwEvent.spi_enable b.AUX_SPI] }) ∧
    platform_spi_deinit b bus s = (true,
      { s with
        clk := fun q => if q = RccPeriph.RCC_SPI2 then false else s.clk q
        trace := s.trace ++
          [HwEvent.spi_disable b.AUX_SPI,
            HwEvent.rcc_periph_clock_disable RccPeriph.RCC_SPI2] }) := by
  constructor
  · simp [platform_spi_init, rcc_periph_clock_enable, rcc_periph_reset_pulse, spi_init_master,
      spi_enable, World.log, h]
  · simp [platform_spi_deinit, rcc_periph_clock_disable, spi_disable, World.log, h]

/-- Witness of the amended C10 on the sample board, at the undefined bus
selector `2`. -/
theorem spi_init_deinit_other_selector_witness :
    2 ≠ sample_board.SPI_BUS_EXTERNAL ∧
    platform_spi_init sample_board 2 sample_world = (true,
      { sample_world with
        clk := fun q => if q = RccPeriph.RCC_SPI2 then true else sample_world.clk q
        trace := sample_world.trace ++
          [HwEvent.rcc_periph_clock_enable RccPeriph.RCC_SPI2,
            HwEvent.rcc_periph_reset_pulse RccReset.RST_SPI2,
            HwEvent.spi_init_master sample_board.AUX_SPI,
            HwEvent.spi_enable sample_board.AUX_SPI] }) ∧
    platform_spi_deinit sample_board 2 sample_world = (true,
      { sample_world with
        clk := fun q => if q = RccPeriph.RCC_SPI2 then false else sample_world.clk q
        trace := sample_world.trace ++
          [HwEvent.spi_disable sample_board.AUX_SPI,
            HwEvent.rcc_periph_clock_disable RccPeriph.RCC_SPI2] }) :=
  ⟨by decide, spi_init_deinit_other_selector sample_board 2 sample_world (by decide)⟩

/-- Counterexample to C10 as stated: on the sample board the selector `2` is
neither of the two defined buses, yet `platform_spi_init` and
`platform_spi_deinit` return `true` and write to the SPI2 clock, the SPI2
reset and the auxiliary controller. -/
theorem spi_undefined_bus_not_rejected :
    2 ≠ sample_board.SPI_BUS_EXTERNAL ∧ 2 ≠ sample_board.SPI_BUS_INTERNAL ∧
    (platform_spi_init sample_board 2 sample_world).1 = true ∧
    (platform_spi_init sample_board 2 sample_world).2.trace =
      [HwEvent.rcc_periph_clock_enable RccPeriph.RCC_SPI2,
        HwEvent.rcc_periph_reset_pulse RccReset.RST_SPI2,
        HwEvent.spi_init_master 2,
        HwEvent.spi_enable 2] ∧
    (platform_spi_init sample_board 2 sample_world).2.clk RccPeriph.RCC_SPI2 = true ∧
    sample_world.clk RccPeriph.RCC_SPI2 = false ∧
    (platform_spi_deinit sample_board 2 sample_world).1 = true ∧
    (platform_spi_deinit sample_board 2 sample_world).2.trace =
      [HwEvent.spi_disable 2,
        HwEvent.rcc_periph_clock_disable RccPeriph.RCC_SPI2] :=
  ⟨by decide, by decide, rfl, rfl, rfl, rfl, rfl, rfl⟩

end Blackmagic
